import Mathlib

set_option maxRecDepth 100000

/-!
Verification development for the OAuth1 signature validator of the
TokenRelay repository (src/docker/mock-oauth1-server/oauth1_validator.py).

The Python module is shallowly embedded below.  Python dictionaries become
association lists with insertion-order semantics (an insert of an existing
key overwrites the value in place; lookups return the value of the unique
entry), machine integers become Int/Nat, raised exceptions become the
error branch of Except, and the two calls into the Python standard library
that the validator makes (urllib.parse.unquote and urlparse) are modelled:
unquote is reimplemented byte-for-byte for well-formed input, and a URL
enters the model as the outcome of the external urlparse call, either a
ParsedURL record of its components or the ValueError urlparse raises;
the lazy port property of that record, which raises ValueError for a
port that is not an ASCII-digit integer in range, is modelled by
pyUrlPort, so the uncaught exception path through URL normalization is
representable.
-/

namespace TokenRelay

/-- Dict models a Python dict from str to str: an association list whose
keys are unique, looked up by first (equivalently unique) match. -/
abbrev Dict := List (String × String)

/-- Lookup in a Dict, mirroring Python dict.get(k) returning None when
the key is absent. -/
def dget (d : Dict) (k : String) : Option String :=
  (d.find? (fun p => p.1 == k)).map (fun p => p.2)

/-- Insertion into a Dict, mirroring Python d[k] = v: an existing key
keeps its position and gets the new value, a new key is appended. -/
def dinsert (d : Dict) (k v : String) : Dict :=
  if d.any (fun p => p.1 == k) then
    d.map (fun p => if p.1 == k then (k, v) else p)
  else d ++ [(k, v)]

/-- Python truthiness of an optional string: None and the empty string
are falsy, every other string is truthy. -/
def truthy : Option String → Bool
  | none => false
  | some s => s != ""

/-- Character-wise lower-casing, the behavior of the Python str.lower
calls of this validator on the ASCII scheme and host names it handles. -/
def strLower (s : String) : String := String.mk (s.data.map Char.toLower)

/-- Character-wise upper-casing, the behavior of the Python str.upper
call at line 111 on ASCII HTTP method names. -/
def strUpper (s : String) : String := String.mk (s.data.map Char.toUpper)

/-- Character-level prefix test. -/
def startsWithChars : List Char → List Char → Bool
  | [], _ => true
  | _ :: _, [] => false
  | p :: ps, c :: cs => p == c && startsWithChars ps cs

/-- Python str.startswith. -/
def pyStartsWith (s pre : String) : Bool := startsWithChars pre.data s.data

/-- Python string slicing from a character index to the end. -/
def strDrop (s : String) (n : Nat) : String := String.mk (s.data.drop n)

/-- UNRESERVED_CHARS of oauth1_validator.py line 17: the RFC 3986
unreserved set. -/
def UNRESERVED_CHARS : List Char :=
  "ABCDEFGHIJKLMNOPQRSTUVWXYZabcdefghijklmnopqrstuvwxyz0123456789-_.~".toList

/-- Uppercase hexadecimal digit characters. -/
def HEX_UPPER : List Char := "0123456789ABCDEF".toList

/-- The hexadecimal digit character (uppercase) for a value below 16. -/
def hexUpper (n : Nat) : Char := HEX_UPPER.getD n '0'

/-- UTF-8 encoding of a single character, as its list of bytes.  Models
the Python expression char.encode(utf-8) for one character. -/
def utf8EncodeChar (c : Char) : List Nat :=
  let n := c.toNat
  if n < 128 then [n]
  else if n < 2048 then
    [192 + n / 64, 128 + n % 64]
  else if n < 65536 then
    [224 + n / 4096, 128 + n / 64 % 64, 128 + n % 64]
  else
    [240 + n / 262144, 128 + n / 4096 % 64, 128 + n / 64 % 64, 128 + n % 64]

/-- UTF-8 encoding of a whole string as a byte list. -/
def utf8Bytes (s : String) : List Nat :=
  (s.toList.map utf8EncodeChar).flatten

/-- Rendering of one byte as a percent escape, mirroring the Python
format expression percent-then-two-uppercase-hex-digits at line 34. -/
def byteHex (b : Nat) : String :=
  String.mk ['%', hexUpper (b / 16), hexUpper (b % 16)]

/-- Encoding of one character inside percent_encode: an unreserved
character stands for itself, anything else becomes the escape of each
of its UTF-8 bytes (lines 29-34). -/
def percentEncodeChar (c : Char) : String :=
  if UNRESERVED_CHARS.contains c then String.singleton c
  else String.join ((utf8EncodeChar c).map byteHex)

/-- percent_encode of oauth1_validator.py lines 20-36. -/
def percent_encode (value : String) : String :=
  if value = "" then ""
  else String.join (value.toList.map percentEncodeChar)

/-- Word characters of the regular expression at line 85 (the pattern
matches ASCII word characters in every use in this repository). -/
def isWordChar (c : Char) : Bool := c.isAlphanum || c == '_'

/-- Value of a hexadecimal digit character, or None. -/
def hexVal (c : Char) : Option Nat :=
  if '0' ≤ c ∧ c ≤ '9' then some (c.toNat - 48)
  else if 'A' ≤ c ∧ c ≤ 'F' then some (c.toNat - 55)
  else if 'a' ≤ c ∧ c ≤ 'f' then some (c.toNat - 87)
  else none

/-- One attempted match of the pattern word-characters, equals sign,
quote, non-quote characters, quote at the head of the input, returning
the two captured groups and the remainder after the match.  Mirrors one
matching step of re.findall with the pattern at line 85. -/
def matchKV (l : List Char) : Option (String × String × List Char) :=
  match l with
  | [] => none
  | c :: rest =>
    if isWordChar c then
      match rest.dropWhile isWordChar with
      | '=' :: '"' :: rest2 =>
        match rest2.dropWhile (fun ch => ch != '"') with
        | '"' :: rest3 =>
          some (String.mk (c :: rest.takeWhile isWordChar),
                String.mk (rest2.takeWhile (fun ch => ch != '"')), rest3)
        | _ => none
      | _ => none
    else none

/-- All matches of the pattern at line 85, scanned left to right the way
re.findall scans: on a match the scan resumes after it, otherwise it
advances one character.  The fuel argument only bounds the recursion;
every step consumes at least one character, so fuel equal to the input
length never runs out before the input does. -/
def refindallAux : Nat → List Char → List (String × String)
  | 0, _ => []
  | fuel + 1, l =>
    match matchKV l with
    | some (k, v, rest) => (k, v) :: refindallAux fuel rest
    | none =>
      match l with
      | [] => []
      | _ :: rest => refindallAux fuel rest

/-- All matches of the key-quoted-value pattern in a character list. -/
def refindall (l : List Char) : List (String × String) := refindallAux l.length l

/-- Token stream used to model urllib.parse.unquote: each valid percent
escape becomes a byte, every other character stands for itself. -/
inductive UnqTok where
  | byte (b : Nat)
  | chr (c : Char)
deriving DecidableEq, Repr

/-- Tokenization pass of the unquote model. -/
def unqTokens : List Char → List UnqTok
  | '%' :: a :: b :: rest =>
    match hexVal a, hexVal b with
    | some ha, some hb => .byte (ha * 16 + hb) :: unqTokens rest
    | _, _ => .chr '%' :: unqTokens (a :: b :: rest)
  | c :: rest => .chr c :: unqTokens rest
  | [] => []

/-- Splits the leading run of byte tokens off a token stream. -/
def takeBytes : List UnqTok → List Nat × List UnqTok
  | .byte b :: rest =>
    let p := takeBytes rest
    (b :: p.1, p.2)
  | l => ([], l)

/-- The Unicode replacement character, emitted for malformed UTF-8. -/
def REPL : Char := Char.ofNat 65533

/-- Whether a byte is a UTF-8 continuation byte. -/
def contByte (b : Nat) : Bool := 128 ≤ b && b ≤ 191

/-- Modelled from the Python standard library: UTF-8 decoding with the
replace error handler, as bytes.decode(utf-8, errors=replace) behaves on
the byte runs that unquote produces.  Well-formed sequences decode
exactly; a malformed prefix is replaced by one replacement character. -/
def decodeUtf8Aux : Nat → List Nat → List Char
  | 0, _ => []
  | _ + 1, [] => []
  | fuel + 1, b :: rest =>
    if b < 128 then Char.ofNat b :: decodeUtf8Aux fuel rest
    else if 194 ≤ b && b ≤ 223 then
      match rest with
      | b2 :: rest2 =>
        if contByte b2 then Char.ofNat ((b - 192) * 64 + (b2 - 128)) :: decodeUtf8Aux fuel rest2
        else REPL :: decodeUtf8Aux fuel rest
      | [] => [REPL]
    else if 224 ≤ b && b ≤ 239 then
      match rest with
      | b2 :: b3 :: rest2 =>
        if contByte b2 && contByte b3 then
          let cp := (b - 224) * 4096 + (b2 - 128) * 64 + (b3 - 128)
          if cp < 2048 || (55296 ≤ cp && cp ≤ 57343) then REPL :: decodeUtf8Aux fuel rest2
          else Char.ofNat cp :: decodeUtf8Aux fuel rest2
        else REPL :: decodeUtf8Aux fuel rest
      | _ => [REPL]
    else if 240 ≤ b && b ≤ 244 then
      match rest with
      | b2 :: b3 :: b4 :: rest2 =>
        if contByte b2 && contByte b3 && contByte b4 then
          let cp := (b - 240) * 262144 + (b2 - 128) * 4096 + (b3 - 128) * 64 + (b4 - 128)
          if cp < 65536 || cp > 1114111 then REPL :: decodeUtf8Aux fuel rest2
          else Char.ofNat cp :: decodeUtf8Aux fuel rest2
        else REPL :: decodeUtf8Aux fuel rest
      | _ => [REPL]
    else REPL :: decodeUtf8Aux fuel rest

/-- Modelled from the Python standard library: UTF-8 decoding with the
replace error handler, as bytes.decode(utf-8, errors=replace) behaves on
the byte runs that unquote produces.  Well-formed sequences decode
exactly; a malformed prefix is replaced by one replacement character.
Each step consumes at least one byte, so fuel equal to the length
suffices. -/
def decodeUtf8 (l : List Nat) : List Char := decodeUtf8Aux l.length l

/-- Emission pass of the unquote model: character tokens pass through,
each maximal run of byte tokens is UTF-8 decoded as a unit.  Each step
consumes at least one token, so fuel equal to the length suffices. -/
def unqEmitAux : Nat → List UnqTok → List Char
  | 0, _ => []
  | _ + 1, [] => []
  | fuel + 1, .chr c :: rest => c :: unqEmitAux fuel rest
  | fuel + 1, .byte b :: rest =>
    let p := takeBytes rest
    decodeUtf8 (b :: p.1) ++ unqEmitAux fuel p.2

/-- Emission pass of the unquote model at full fuel. -/
def unqEmit (l : List UnqTok) : List Char := unqEmitAux l.length l

/-- Modelled from the Python standard library urllib.parse.unquote:
percent escapes with valid hexadecimal digits are decoded to bytes, each
maximal escape run is UTF-8 decoded with the replace error handler, and
everything else passes through unchanged. -/
def unquote (s : String) : String :=
  String.mk (unqEmit (unqTokens s.toList))

/-- parse_authorization_header of oauth1_validator.py lines 70-92. -/
def parse_authorization_header (auth_header : String) : Dict :=
  if auth_header = "" ∨ ¬ pyStartsWith auth_header "OAuth " then []
  else
    let header_content := strDrop auth_header 6
    let found := refindall header_content.toList
    found.foldl (fun d kv => dinsert d kv.1 (unquote kv.2)) []

/-- Python whitespace stripping as str.strip applies to the ASCII
whitespace that can occur in this validator. -/
def pyStrip (l : List Char) : List Char :=
  ((l.dropWhile Char.isWhitespace).reverse.dropWhile Char.isWhitespace).reverse

/-- Validity of the digit part of a Python integer literal after the
first digit: single underscores may separate digits. -/
def pyDigitsRest : List Char → Bool
  | [] => true
  | '_' :: rest =>
    match rest with
    | c :: rest2 => c.isDigit && pyDigitsRest rest2
    | [] => false
  | c :: rest => c.isDigit && pyDigitsRest rest

/-- Validity of the digit part of a Python integer literal. -/
def pyDigitsOk : List Char → Bool
  | [] => false
  | c :: rest => c.isDigit && pyDigitsRest rest

/-- Numeric value of a digit list (underscores removed beforehand). -/
def digitsVal (l : List Char) : Nat :=
  l.foldl (fun a c => a * 10 + (c.toNat - 48)) 0

/-- Modelled from the Python standard library: int(s) on a str argument,
as the except ValueError handler at lines 232-242 observes it.  Leading
and trailing whitespace is stripped, an optional sign precedes ASCII
digits which may be separated by single underscores; anything else
raises, modelled as None. -/
def pyIntOfString (s : String) : Option Int :=
  let t := pyStrip s.toList
  let signAndDigits : Int × List Char :=
    match t with
    | '+' :: rest => (1, rest)
    | '-' :: rest => (-1, rest)
    | _ => (1, t)
  if pyDigitsOk signAndDigits.2 then
    some (signAndDigits.1 * (digitsVal (signAndDigits.2.filter (fun c => c != '_')) : Int))
  else none

/-- ParsedURL is a successful result of the Python standard library
urlparse call at line 48, with exactly the components normalize_url
reads plus the query string (which it never reads).  hostname is None
when the URL has no network location.  port holds the raw port text of
the netloc (None when the netloc carries no colon-port): urlparse keeps
the port as text and the port property parses it lazily, see pyUrlPort.
A URL on which urlparse itself raises (a malformed IPv6 netloc) is
represented by the error branch of the Except that carries this record
into the validator. -/
structure ParsedURL where
  scheme : String
  hostname : Option String
  port : Option String
  path : String
  query : String
deriving DecidableEq, Repr

/-- Modelled from the Python standard library: the port property of a
urlparse result, as read at line 52 of oauth1_validator.py.  Empty port
text counts as absent; nonempty text must be all ASCII digits and parse
into the range 0 to 65535, anything else raises ValueError, the error
branch.  (The quoting that repr adds around the offending text in the
cast message is omitted; no claim inspects that message.) -/
def pyUrlPort : Option String → Except String (Option Nat)
  | none => .ok none
  | some s =>
    if s = "" then .ok none
    else if s.data.all Char.isDigit then
      if digitsVal s.data ≤ 65535 then .ok (some (digitsVal s.data))
      else .error "Port out of range 0-65535"
    else .error ("Port could not be cast to integer value as " ++ s)

/-- normalize_url of oauth1_validator.py lines 39-67, over the outcome
of the urlparse call at line 48 (a ValueError raised by urlparse itself
propagates).  The port property read at line 52 can raise ValueError,
the error branch; the scheme, hostname and path reads around it are
pure, so reading the port first is result-equivalent.  The Python
condition at line 63 tests the truthiness of port, so a present port
equal to zero is rendered like an absent one. -/
def normalize_url (pu : Except String ParsedURL) : Except String String :=
  match pu with
  | .error e => .error e
  | .ok u =>
    match pyUrlPort u.port with
    | .error e => .error e
    | .ok port =>
      let scheme := strLower u.scheme
      let host := match u.hostname with
        | some h => strLower h
        | none => ""
      let path := if u.path = "" then "/" else u.path
      let include_port :=
        if (scheme = "http" ∧ port = some 80) ∨ (scheme = "https" ∧ port = some 443) then false
        else if port = none then false
        else true
      let normalized := scheme ++ "://" ++ host
      let normalized :=
        match port with
        | some p => if include_port ∧ p ≠ 0 then normalized ++ ":" ++ toString p else normalized
        | none => normalized
      .ok (normalized ++ path)

/-- Reduction of a natural number to a 32-bit machine word value. -/
def w32 (n : Nat) : Nat := n % 4294967296

/-- Right rotation of a 32-bit word. -/
def rotr32 (x k : Nat) : Nat := w32 ((x >>> k) ||| (x <<< (32 - k)))

/-- Left rotation of a 32-bit word. -/
def rotl32 (x k : Nat) : Nat := w32 ((x <<< k) ||| (x >>> (32 - k)))

/-- Big-endian bytes of a 32-bit word. -/
def word32BE (n : Nat) : List Nat :=
  [n / 16777216 % 256, n / 65536 % 256, n / 256 % 256, n % 256]

/-- Big-endian bytes of a 64-bit length field. -/
def word64BE (n : Nat) : List Nat :=
  [n / 72057594037927936 % 256, n / 281474976710656 % 256,
   n / 1099511627776 % 256, n / 4294967296 % 256,
   n / 16777216 % 256, n / 65536 % 256, n / 256 % 256, n % 256]

/-- Grouping of a byte list into big-endian 32-bit words. -/
def bytesToWords32 : List Nat → List Nat
  | b0 :: b1 :: b2 :: b3 :: rest =>
    (b0 * 16777216 + b1 * 65536 + b2 * 256 + b3) :: bytesToWords32 rest
  | _ => []

/-- Merkle-Damgard padding shared by SHA-1 and SHA-256: a 128 byte, zero
bytes to 56 modulo 64, and the bit length as eight big-endian bytes. -/
def shaPad (msg : List Nat) : List Nat :=
  msg ++ 128 :: List.replicate ((119 - msg.length % 64) % 64) 0 ++ word64BE (8 * msg.length)

/-- Splitting a byte list into 64-byte blocks.  Each step consumes at
least one byte, so fuel equal to the length suffices. -/
def chunks64Aux : Nat → List Nat → List (List Nat)
  | 0, _ => []
  | _ + 1, [] => []
  | fuel + 1, c :: cs => ((c :: cs).take 64) :: chunks64Aux fuel ((c :: cs).drop 64)

/-- Splitting a byte list into 64-byte blocks. -/
def chunks64 (l : List Nat) : List (List Nat) := chunks64Aux l.length l

/-- Working state of SHA-256. -/
structure SHA256State where
  a : Nat
  b : Nat
  c : Nat
  d : Nat
  e : Nat
  f : Nat
  g : Nat
  h : Nat
deriving DecidableEq, Repr

/-- Round constants of SHA-256. -/
def sha256K : List Nat :=
  [1116352408, 1899447441, 3049323471, 3921009573,
   961987163, 1508970993, 2453635748, 2870763221,
   3624381080, 310598401, 607225278, 1426881987,
   1925078388, 2162078206, 2614888103, 3248222580,
   3835390401, 4022224774, 264347078, 604807628,
   770255983, 1249150122, 1555081692, 1996064986,
   2554220882, 2821834349, 2952996808, 3210313671,
   3336571891, 3584528711, 113926993, 338241895,
   666307205, 773529912, 1294757372, 1396182291,
   1695183700, 1986661051, 2177026350, 2456956037,
   2730485921, 2820302411, 3259730800, 3345764771,
   3516065817, 3600352804, 4094571909, 275423344,
   430227734, 506948616, 659060556, 883997877,
   958139571, 1322822218, 1537002063, 1747873779,
   1955562222, 2024104815, 2227730452, 2361852424,
   2428436474, 2756734187, 3204031479, 3329325298]

/-- Message-schedule extension of SHA-256: the first sixteen words grow
to sixty-four. -/
def sha256Schedule (ws : List Nat) : List Nat :=
  (List.range 48).foldl (fun w _ =>
    let n := w.length
    let w15 := w.getD (n - 15) 0
    let w2 := w.getD (n - 2) 0
    let w16 := w.getD (n - 16) 0
    let w7 := w.getD (n - 7) 0
    let s0 := rotr32 w15 7 ^^^ rotr32 w15 18 ^^^ (w15 >>> 3)
    let s1 := rotr32 w2 17 ^^^ rotr32 w2 19 ^^^ (w2 >>> 10)
    w ++ [w32 (w16 + s0 + w7 + s1)]) ws

/-- One round of the SHA-256 compression function. -/
def sha256Round (st : SHA256State) (kw : Nat × Nat) : SHA256State :=
  let s1 := rotr32 st.e 6 ^^^ rotr32 st.e 11 ^^^ rotr32 st.e 25
  let ch := (st.e &&& st.f) ^^^ ((st.e ^^^ 4294967295) &&& st.g)
  let temp1 := w32 (st.h + s1 + ch + kw.1 + kw.2)
  let s0 := rotr32 st.a 2 ^^^ rotr32 st.a 13 ^^^ rotr32 st.a 22
  let maj := (st.a &&& st.b) ^^^ (st.a &&& st.c) ^^^ (st.b &&& st.c)
  let temp2 := w32 (s0 + maj)
  ⟨w32 (temp1 + temp2), st.a, st.b, st.c, w32 (st.d + temp1), st.e, st.f, st.g⟩

/-- Compression of one 64-byte block into the SHA-256 state. -/
def sha256Compress (st : SHA256State) (block : List Nat) : SHA256State :=
  let w := sha256Schedule (bytesToWords32 block)
  let t := (sha256K.zip w).foldl sha256Round st
  ⟨w32 (st.a + t.a), w32 (st.b + t.b), w32 (st.c + t.c), w32 (st.d + t.d),
   w32 (st.e + t.e), w32 (st.f + t.f), w32 (st.g + t.g), w32 (st.h + t.h)⟩

/-- Initial state of SHA-256. -/
def sha256Init : SHA256State :=
  ⟨1779033703, 3144134277,
   1013904242, 2773480762,
   1359893119, 2600822924,
   528734635, 1541459225⟩

/-- Modelled from the Python standard library hashlib.sha256: the SHA-256
digest of a byte list, as a list of thirty-two bytes. -/
def sha256 (msg : List Nat) : List Nat :=
  let st := (chunks64 (shaPad msg)).foldl sha256Compress sha256Init
  word32BE st.a ++ word32BE st.b ++ word32BE st.c ++ word32BE st.d ++
  word32BE st.e ++ word32BE st.f ++ word32BE st.g ++ word32BE st.h

/-- Working state of SHA-1. -/
structure SHA1State where
  a : Nat
  b : Nat
  c : Nat
  d : Nat
  e : Nat
deriving DecidableEq, Repr

/-- Round function selector of SHA-1. -/
def sha1F (i b c d : Nat) : Nat :=
  if i < 20 then (b &&& c) ||| ((b ^^^ 4294967295) &&& d)
  else if i < 40 then b ^^^ c ^^^ d
  else if i < 60 then (b &&& c) ||| (b &&& d) ||| (c &&& d)
  else b ^^^ c ^^^ d

/-- Round constant selector of SHA-1. -/
def sha1KC (i : Nat) : Nat :=
  if i < 20 then 1518500249
  else if i < 40 then 1859775393
  else if i < 60 then 2400959708
  else 3395469782

/-- Message-schedule extension of SHA-1: sixteen words grow to eighty. -/
def sha1Schedule (ws : List Nat) : List Nat :=
  (List.range 64).foldl (fun w _ =>
    let n := w.length
    w ++ [rotl32 (w.getD (n - 3) 0 ^^^ w.getD (n - 8) 0 ^^^ w.getD (n - 14) 0 ^^^ w.getD (n - 16) 0) 1]) ws

/-- One round of the SHA-1 compression function. -/
def sha1Round (st : SHA1State) (iw : Nat × Nat) : SHA1State :=
  let temp := w32 (rotl32 st.a 5 + sha1F iw.1 st.b st.c st.d + st.e + sha1KC iw.1 + iw.2)
  ⟨temp, st.a, rotl32 st.b 30, st.c, st.d⟩

/-- Compression of one 64-byte block into the SHA-1 state. -/
def sha1Compress (st : SHA1State) (block : List Nat) : SHA1State :=
  let w := sha1Schedule (bytesToWords32 block)
  let t := ((List.range 80).zip w).foldl sha1Round st
  ⟨w32 (st.a + t.a), w32 (st.b + t.b), w32 (st.c + t.c), w32 (st.d + t.d), w32 (st.e + t.e)⟩

/-- Initial state of SHA-1. -/
def sha1Init : SHA1State :=
  ⟨1732584193, 4023233417, 2562383102, 271733878, 3285377520⟩

/-- Modelled from the Python standard library hashlib.sha1: the SHA-1
digest of a byte list, as a list of twenty bytes. -/
def sha1 (msg : List Nat) : List Nat :=
  let st := (chunks64 (shaPad msg)).foldl sha1Compress sha1Init
  word32BE st.a ++ word32BE st.b ++ word32BE st.c ++ word32BE st.d ++ word32BE st.e

/-- Modelled from the Python standard library hmac module: the keyed-hash
message authentication code over a hash with 64-byte blocks, as
hmac.new(key, msg, hashfn).digest() computes it. -/
def hmacDigest (hash : List Nat → List Nat) (key msg : List Nat) : List Nat :=
  let key := if key.length > 64 then hash key else key
  let key := key ++ List.replicate (64 - key.length) 0
  let opad := key.map (fun b => b ^^^ 92)
  let ipad := key.map (fun b => b ^^^ 54)
  hash (opad ++ hash (ipad ++ msg))

/-- Alphabet of standard base64. -/
def B64_CHARS : List Char :=
  "ABCDEFGHIJKLMNOPQRSTUVWXYZabcdefghijklmnopqrstuvwxyz0123456789+/".toList

/-- Character of a six-bit group in base64. -/
def b64Char (n : Nat) : Char := B64_CHARS.getD n 'A'

/-- Character list of the base64 encoding of a byte list. -/
def b64encodeAux : List Nat → List Char
  | [] => []
  | [b0] => [b64Char (b0 / 4), b64Char (b0 % 4 * 16), '=', '=']
  | [b0, b1] => [b64Char (b0 / 4), b64Char (b0 % 4 * 16 + b1 / 16), b64Char (b1 % 16 * 4), '=']
  | b0 :: b1 :: b2 :: rest =>
    b64Char (b0 / 4) :: b64Char (b0 % 4 * 16 + b1 / 16) ::
    b64Char (b1 % 16 * 4 + b2 / 64) :: b64Char (b2 % 64) :: b64encodeAux rest

/-- Modelled from the Python standard library base64.b64encode (composed
with the ascii decode at line 132): standard base64 with padding. -/
def b64encode (l : List Nat) : String := String.mk (b64encodeAux l)

/-- Lexicographic comparison of character lists by code point, the
Python string ordering. -/
def charListLt : List Char → List Char → Bool
  | _, [] => false
  | [], _ :: _ => true
  | c1 :: r1, c2 :: r2 =>
    c1.toNat < c2.toNat || (c1.toNat == c2.toNat && charListLt r1 r2)

/-- Python strict string comparison by code points. -/
def strLt (a b : String) : Bool := charListLt a.data b.data

/-- Comparison of key-value pairs by key then by value, the tuple sort
key of line 103 of oauth1_validator.py. -/
def pairLe (x y : String × String) : Bool :=
  strLt x.1 y.1 || (x.1 == y.1 && (strLt x.2 y.2 || x.2 == y.2))

/-- Sorted insertion of one pair. -/
def insertPair (x : String × String) : List (String × String) → List (String × String)
  | [] => [x]
  | y :: ys => if pairLe x y then x :: y :: ys else y :: insertPair x ys

/-- Stable sort by pairLe, the semantics of the Python sorted call at
line 103. -/
def sortPairs (l : List (String × String)) : List (String × String) :=
  l.foldr insertPair []

/-- generate_signature_base_string of oauth1_validator.py lines 95-111.
The Python upper call acts on ASCII method names exactly as
String.toUpper does. -/
def generate_signature_base_string (http_method base_url : String) (params : Dict) : String :=
  let sorted_params := sortPairs params
  let normalized_params :=
    String.intercalate "&" (sorted_params.map (fun kv => percent_encode kv.1 ++ "=" ++ percent_encode kv.2))
  strUpper http_method ++ "&" ++ percent_encode base_url ++ "&" ++ percent_encode normalized_params

/-- generate_signature of oauth1_validator.py lines 114-132.  The raise
of ValueError at line 130 is the error branch. -/
def generate_signature (base_string consumer_secret token_secret signature_method : String) :
    Except String String :=
  let signing_key := percent_encode consumer_secret ++ "&" ++ percent_encode token_secret
  let key_bytes := utf8Bytes signing_key
  let data_bytes := utf8Bytes base_string
  if signature_method = "HMAC-SHA256" then
    .ok (b64encode (hmacDigest sha256 key_bytes data_bytes))
  else if signature_method = "HMAC-SHA1" then
    .ok (b64encode (hmacDigest sha1 key_bytes data_bytes))
  else .error ("Unsupported signature method: " ++ signature_method)

/-- A value of the query_params dict.  The callers in app.py build that
dict from the Flask MultiDict of request query parameters, whose values
are nonempty lists of strings, so a list value always has a first
element; a plain string value is also accepted, as in the validator. -/
inductive QueryValue where
  | str (s : String)
  | list (v : String) (rest : List String)
deriving DecidableEq, Repr

/-- The value the loop at lines 262-265 feeds into sig_params: the first
element of a list value, a string value itself. -/
def QueryValue.first : QueryValue → String
  | .str s => s
  | .list v _ => v

/-- Credentials dict of the validator, as get_credentials in app.py
builds it.  The two optional fields mirror the dict.get defaults at
lines 212 and 222 of the validator; secrets default to the empty string
at lines 274-275. -/
structure Credentials where
  consumer_key : String
  consumer_secret : String
  token_id : String
  token_secret : String
  realm : Option String
  signature_methods : Option (List String)
deriving DecidableEq, Repr

/-- Debug payload attached to an invalid_signature verdict
(lines 286-291). -/
structure DebugInfo where
  expected_signature : String
  received_signature : String
  signature_base_string : String
  signing_params : Dict
deriving DecidableEq, Repr

/-- Verdict dict of validate_oauth1_request: a failure carries the error
code, the message, the parsed parameters (absent only for
missing_authorization) and possibly the debug payload; a success carries
the normalized parameter subset of lines 294-305. -/
inductive ValidationResult where
  | failure (error : String) (message : String) (oauth_params : Option Dict) (debug : Option DebugInfo)
  | success (consumer_key token signature_method timestamp nonce : String)
      (realm : Option String) (version : String)
deriving DecidableEq, Repr

deriving instance DecidableEq for Except

/-- Python str() of an optional string inside an f-string: None prints
as the word None. -/
def pyStrOpt : Option String → String
  | none => "None"
  | some s => s

/-- The list of names of required parameters that are absent or empty,
exactly as lines 179-184 accumulate it. -/
def missingList (consumer_key token timestamp nonce signature : Option String) : List String :=
  (if truthy consumer_key then [] else ["oauth_consumer_key"]) ++
  (if truthy token then [] else ["oauth_token"]) ++
  (if truthy timestamp then [] else ["oauth_timestamp"]) ++
  (if truthy nonce then [] else ["oauth_nonce"]) ++
  (if truthy signature then [] else ["oauth_signature"])

/-- Construction of sig_params at lines 250-265: the six extracted OAuth
parameters, then every query parameter (first value only), with dict
insertion semantics, so a query parameter of equal name overwrites. -/
def build_sig_params (consumer_key token signature_method timestamp nonce version : String)
    (query_params : List (String × QueryValue)) : Dict :=
  let sig_params : Dict := [
    ("oauth_consumer_key", consumer_key),
    ("oauth_token", token),
    ("oauth_signature_method", signature_method),
    ("oauth_timestamp", timestamp),
    ("oauth_nonce", nonce),
    ("oauth_version", version)]
  query_params.foldl (fun d kv => dinsert d kv.1 kv.2.first) sig_params

/-- validate_oauth1_request of oauth1_validator.py lines 135-305.  The
wall clock read int(time.time()) at line 234 enters as the parameter
now; the request URL enters as the outcome of the external urlparse
call at line 48, either its components or the ValueError urlparse
raises, and the ValueError that the port read at line 52 can raise
propagates uncaught through the URL-normalization step at line 268
(the validator's only try block wraps the timestamp parse). -/
def validate_oauth1_request (http_method : String) (request_url : Except String ParsedURL)
    (auth_header : String) (query_params : List (String × QueryValue))
    (credentials : Credentials) (timestamp_tolerance : Int) (now : Int) :
    Except String ValidationResult :=
  let oauth_params := parse_authorization_header auth_header
  if oauth_params = [] then
    .ok (.failure "missing_authorization" "Missing or invalid OAuth Authorization header" none none)
  else
    let consumer_key := dget oauth_params "oauth_consumer_key"
    let token := dget oauth_params "oauth_token"
    let signature_method := (dget oauth_params "oauth_signature_method").getD "HMAC-SHA256"
    let timestamp := dget oauth_params "oauth_timestamp"
    let nonce := dget oauth_params "oauth_nonce"
    let signature := dget oauth_params "oauth_signature"
    let realm := dget oauth_params "realm"
    let version := (dget oauth_params "oauth_version").getD "1.0"
    if ¬ (truthy consumer_key ∧ truthy token ∧ truthy timestamp ∧ truthy nonce ∧ truthy signature) then
      let missing : List String := missingList consumer_key token timestamp nonce signature
      .ok (.failure "missing_parameters"
        ("Missing required OAuth parameters: " ++ String.intercalate ", " missing)
        (some oauth_params) none)
    else if consumer_key ≠ some credentials.consumer_key then
      .ok (.failure "invalid_consumer_key" "Consumer key does not match" (some oauth_params) none)
    else if token ≠ some credentials.token_id then
      .ok (.failure "invalid_token" "Token does not match" (some oauth_params) none)
    else if truthy credentials.realm ∧ realm ≠ credentials.realm then
      .ok (.failure "invalid_realm"
        ("Realm does not match. Expected: " ++ pyStrOpt credentials.realm ++ ", Got: " ++ pyStrOpt realm)
        (some oauth_params) none)
    else
      let allowed_methods := credentials.signature_methods.getD ["HMAC-SHA256", "HMAC-SHA1"]
      if ¬ allowed_methods.contains signature_method then
        .ok (.failure "invalid_signature_method"
          ("Signature method not allowed: " ++ signature_method) (some oauth_params) none)
      else
        match pyIntOfString (timestamp.getD "") with
        | none =>
          .ok (.failure "invalid_timestamp" "Timestamp is not a valid integer" (some oauth_params) none)
        | some request_timestamp =>
          if ((now - request_timestamp).natAbs : Int) > timestamp_tolerance then
            .ok (.failure "expired_timestamp"
              ("Timestamp out of range. Current: " ++ toString now ++
               ", Request: " ++ toString request_timestamp)
              (some oauth_params) none)
          else
            let sig_params := build_sig_params (consumer_key.getD "") (token.getD "")
              signature_method (timestamp.getD "") (nonce.getD "") version query_params
            match normalize_url request_url with
            | .error e => .error e
            | .ok base_url =>
              let base_string := generate_signature_base_string http_method base_url sig_params
              match generate_signature base_string credentials.consumer_secret
                  credentials.token_secret signature_method with
              | .error e => .error e
              | .ok expected_signature =>
                if signature ≠ some expected_signature then
                  .ok (.failure "invalid_signature" "Signature does not match" (some oauth_params)
                    (some ⟨expected_signature, signature.getD "", base_string, sig_params⟩))
                else
                  .ok (.success (consumer_key.getD "") (token.getD "") signature_method
                    (timestamp.getD "") (nonce.getD "") realm version)

/-- Error code of a verdict: the error field of a failure, nothing for a
success or a raised exception. -/
def resultError : Except String ValidationResult → Option String
  | .ok (.failure e _ _ _) => some e
  | _ => none

/-- Modelled from the spec, section 4.2 Normalize-URL, word by word,
over a successfully parsed URL (the spec speaks of parseable URLs):
lower-cases scheme and host; strips the port if it is the default of
the scheme (80 for http, 443 for https) or absent; keeps it otherwise;
preserves the path, defaulting to the single slash if empty; always
strips the query string.  Output form scheme, colon, two slashes, host,
optional colon port, path. -/
def spec_normalize_url (u : ParsedURL) : Except String String :=
  match pyUrlPort u.port with
  | .error e => .error e
  | .ok port =>
    let scheme := strLower u.scheme
    let host := match u.hostname with
      | some h => strLower h
      | none => ""
    let path := if u.path = "" then "/" else u.path
    let portPart := match port with
      | none => ""
      | some p =>
        if (scheme = "http" ∧ p = 80) ∨ (scheme = "https" ∧ p = 443) then ""
        else ":" ++ toString p
    .ok (scheme ++ "://" ++ host ++ portPart ++ path)

theorem dget_nil (k : String) : dget [] k = none := rfl

theorem dget_ne_nil {d : Dict} {k v : String} (h : dget d k = some v) : d ≠ [] := by
  intro hd
  subst hd
  simp [dget] at h

theorem dget_dinsert_self (d : Dict) (k v : String) : dget (dinsert d k v) k = some v := by
  unfold dinsert
  split
  · rename_i hany
    unfold dget
    induction d with
    | nil => simp at hany
    | cons p rest ih =>
      by_cases hp : p.1 == k
      · simp [List.find?, hp]
      · simp only [List.any_cons, Bool.or_eq_true] at hany
        rcases hany with h1 | h2
        · exact absurd h1 hp
        · simp only [List.map_cons, List.find?, hp, if_neg]
          simpa [hp] using ih h2
  · unfold dget
    induction d with
    | nil => simp [List.find?]
    | cons p rest ih =>
      rename_i hany
      simp only [List.any_cons, Bool.or_eq_true, not_or] at hany
      simp only [List.cons_append, List.find?, hany.1]
      simp only [Bool.false_eq_true, if_false] at ih ⊢
      exact ih (by simpa using hany.2)

theorem find?_map_overwrite (rest : List (String × String)) (k k' v : String) (h : k' ≠ k) :
    ((rest.map (fun p => if p.1 == k then (k, v) else p)).find? (fun p => p.1 == k')) =
    rest.find? (fun p => p.1 == k') := by
  induction rest with
  | nil => rfl
  | cons p tail ih =>
    by_cases hp : (p.1 == k) = true
    · have hpk : p.1 = k := by simpa using hp
      have hne : (((k, v) : String × String).1 == k') = false := by
        simpa using fun hh => h hh.symm
      have hne2 : (p.1 == k') = false := by
        rw [hpk]
        simpa using fun hh => h hh.symm
      simp only [List.map_cons, if_pos hp, List.find?_cons, hne, hne2]
      exact ih
    · simp only [List.map_cons, if_neg hp, List.find?_cons]
      cases hp' : (p.1 == k') with
      | true => rfl
      | false => exact ih

theorem find?_append_single_ne (d : List (String × String)) (k k' v : String) (h : k' ≠ k) :
    ((d ++ [(k, v)]).find? (fun p => p.1 == k')) = d.find? (fun p => p.1 == k') := by
  induction d with
  | nil =>
    have hne : (((k, v) : String × String).1 == k') = false := by
      simpa using fun hh => h hh.symm
    simp only [List.nil_append, List.find?_cons, hne]
  | cons p tail ih =>
    simp only [List.cons_append, List.find?_cons]
    cases hp' : (p.1 == k') with
    | true => rfl
    | false => exact ih

theorem dget_dinsert_ne (d : Dict) {k k' : String} (v : String) (h : k' ≠ k) :
    dget (dinsert d k v) k' = dget d k' := by
  unfold dinsert dget
  split
  · rw [find?_map_overwrite d k k' v h]
  · rw [find?_append_single_ne d k k' v h]

/-- Characterization of the query-parameter merge loop of lines 262-265
over a starting dict: a key present among the query parameters (whose
keys are unique, as dict keys) ends at its first value, any other key
keeps its prior binding. -/
theorem dget_fold_query (qp : List (String × QueryValue)) (hnd : (qp.map Prod.fst).Nodup)
    (d0 : Dict) (k : String) :
    dget (qp.foldl (fun d kv => dinsert d kv.1 kv.2.first) d0) k =
      match qp.find? (fun p => p.1 == k) with
      | some p => some p.2.first
      | none => dget d0 k := by
  induction qp generalizing d0 with
  | nil => simp
  | cons q rest ih =>
    simp only [List.map_cons, List.nodup_cons] at hnd
    simp only [List.foldl_cons]
    rw [ih hnd.2]
    by_cases hq : (q.1 == k) = true
    · have hqk : q.1 = k := by simpa using hq
      have hrest : rest.find? (fun p => p.1 == k) = none := by
        rw [List.find?_eq_none]
        intro p hp hpk
        have hpk' : p.1 = k := by simpa using hpk
        exact hnd.1 (hqk ▸ hpk' ▸ List.mem_map_of_mem Prod.fst hp)
      rw [hrest]
      simp only [List.find?_cons, hq]
      subst hqk
      exact dget_dinsert_self d0 q.1 q.2.first
    · have hqf : (q.1 == k) = false := by simpa using hq
      simp only [List.find?_cons, hqf]
      cases hfr : rest.find? (fun p => p.1 == k) with
      | some p => rfl
      | none =>
        simp only []
        exact dget_dinsert_ne d0 q.2.first (fun hh => by simp [hh] at hq)

theorem b64encodeAux_ne_nil {l : List Nat} (h : l ≠ []) : b64encodeAux l ≠ [] := by
  match l with
  | [] => exact absurd rfl h
  | [b0] => simp [b64encodeAux]
  | [b0, b1] => simp [b64encodeAux]
  | b0 :: b1 :: b2 :: rest => simp [b64encodeAux]

theorem sha256_ne_nil (msg : List Nat) : sha256 msg ≠ [] := by
  simp [sha256, word32BE]

theorem sha1_ne_nil (msg : List Nat) : sha1 msg ≠ [] := by
  simp [sha1, word32BE]

theorem generate_signature_ok_ne_empty {bs cs ts m s : String}
    (h : generate_signature bs cs ts m = .ok s) : s ≠ "" := by
  unfold generate_signature at h
  split at h
  · have hs : s = b64encode (hmacDigest sha256 (utf8Bytes (percent_encode cs ++ "&" ++ percent_encode ts)) (utf8Bytes bs)) := by
      injection h with h2
      exact h2.symm
    subst hs
    unfold b64encode
    intro hc
    have : b64encodeAux (hmacDigest sha256 (utf8Bytes (percent_encode cs ++ "&" ++ percent_encode ts)) (utf8Bytes bs)) = [] := by
      have := congrArg String.data hc
      simpa using this
    exact b64encodeAux_ne_nil (by simp [hmacDigest]; exact sha256_ne_nil _) this
  · split at h
    · have hs : s = b64encode (hmacDigest sha1 (utf8Bytes (percent_encode cs ++ "&" ++ percent_encode ts)) (utf8Bytes bs)) := by
        injection h with h2
        exact h2.symm
      subst hs
      unfold b64encode
      intro hc
      have : b64encodeAux (hmacDigest sha1 (utf8Bytes (percent_encode cs ++ "&" ++ percent_encode ts)) (utf8Bytes bs)) = [] := by
        have := congrArg String.data hc
        simpa using this
      exact b64encodeAux_ne_nil (by simp [hmacDigest]; exact sha1_ne_nil _) this
    · exact absurd h (by simp)

theorem string_eq_of_data_eq {a b : String} (h : a.data = b.data) : a = b := by
  cases a
  cases b
  exact congrArg String.mk h

theorem foldl_append_data (L : List String) (s : String) :
    (L.foldl (fun r t => r ++ t) s).data = s.data ++ (L.map String.data).flatten := by
  induction L generalizing s with
  | nil => simp
  | cons x L ih =>
    simp only [List.foldl_cons, ih, String.data_append, List.map_cons, List.flatten_cons,
      List.append_assoc]

theorem join_data (L : List String) : (String.join L).data = (L.map String.data).flatten := by
  show (L.foldl (fun r t => r ++ t) "").data = _
  rw [foldl_append_data]
  rfl

theorem flatten_map_singleton (l : List Char) : (l.map (fun c => [c])).flatten = l := by
  induction l with
  | nil => rfl
  | cons c ll ih => simp [ih]

/-- Claim C5: percent_encode leaves every unreserved character (letters,
digits, hyphen, underscore, dot, tilde) unchanged, so a string of only
unreserved characters encodes to itself, and replaces every other
character by one percent escape per UTF-8 byte, each escape consisting
of a percent sign and two uppercase hexadecimal digits. -/
theorem claim_C5_percent_encode :
    (∀ s : String, (∀ c ∈ s.toList, c ∈ UNRESERVED_CHARS) → percent_encode s = s) ∧
    (∀ c : Char, c ∉ UNRESERVED_CHARS →
      (percent_encode (String.singleton c)).toList =
        ((utf8EncodeChar c).map (fun b => ['%', hexUpper (b / 16), hexUpper (b % 16)])).flatten) ∧
    (∀ n : Nat, n < 16 → hexUpper n ∈ HEX_UPPER ∧ ((hexUpper n).isUpper ∨ (hexUpper n).isDigit)) := by
  refine ⟨?_, ?_, ?_⟩
  · intro s hs
    by_cases hemp : s = ""
    · subst hemp
      rfl
    · unfold percent_encode
      rw [if_neg hemp]
      have hmap : s.toList.map percentEncodeChar = s.toList.map String.singleton := by
        apply List.map_congr_left
        intro c hc
        unfold percentEncodeChar
        rw [if_pos (List.elem_iff.mpr (hs c hc))]
      rw [hmap]
      apply string_eq_of_data_eq
      rw [join_data, List.map_map]
      have hcomp : (String.data ∘ String.singleton) = fun c : Char => [c] := by
        funext c
        rfl
      rw [hcomp, flatten_map_singleton]
      rfl
  · intro c hc
    have hne : String.singleton c ≠ "" := by
      intro hh
      have hd := congrArg String.data hh
      simp [String.singleton, String.push] at hd
    unfold percent_encode
    rw [if_neg hne]
    have h1 : (String.singleton c).toList = [c] := rfl
    rw [h1]
    show (String.join [percentEncodeChar c]).data = _
    rw [join_data]
    simp only [List.map_cons, List.map_nil, List.flatten_cons, List.flatten_nil,
      List.append_nil]
    unfold percentEncodeChar
    rw [if_neg (fun hcont => hc (List.elem_iff.mp hcont))]
    rw [join_data, List.map_map]
    have hcomp : (String.data ∘ byteHex) = fun b : Nat => ['%', hexUpper (b / 16), hexUpper (b % 16)] := by
      funext b
      rfl
    rw [hcomp]
  · intro n hn
    interval_cases n <;> exact ⟨by decide, by decide⟩

theorem claim_C5_witness :
    percent_encode "Abc-xyz_019.~" = "Abc-xyz_019.~" ∧
    (percent_encode (String.singleton ' ')).toList =
      ((utf8EncodeChar ' ').map (fun b => ['%', hexUpper (b / 16), hexUpper (b % 16)])).flatten ∧
    hexUpper 10 ∈ HEX_UPPER ∧ ((hexUpper 10).isUpper ∨ (hexUpper 10).isDigit) :=
  ⟨claim_C5_percent_encode.1 "Abc-xyz_019.~" (by decide),
   claim_C5_percent_encode.2.1 ' ' (by decide),
   claim_C5_percent_encode.2.2 10 (by decide)⟩

/-- Claim C6, counterexample: the claim says a present, non-default port
is kept, but at the URL with scheme http, host example.com, port zero
and path /a (which urlparse parses successfully and whose port property
returns zero) the code omits the port: the truthiness test at line 63
treats port zero like an absent port, so the claimed output shape with
the port kept does not hold. -/
theorem claim_C6_counterexample :
    normalize_url (.ok ⟨"http", some "example.com", some "0", "/a", ""⟩) =
      .ok "http://example.com/a" ∧
    spec_normalize_url ⟨"http", some "example.com", some "0", "/a", ""⟩ =
      .ok "http://example.com:0/a" ∧
    ¬ normalize_url (.ok ⟨"http", some "example.com", some "0", "/a", ""⟩) =
        spec_normalize_url ⟨"http", some "example.com", some "0", "/a", ""⟩ :=
  ⟨by decide, by decide, by decide⟩

/-- Claim C6 as amended: a urlparse failure, or a port text that the
urlparse port property rejects, propagates as the raised ValueError;
for every successfully parsed URL with a readable port, normalize_url
returns scheme, colon-slash-slash, host with scheme and host
lower-cased, then the port (kept exactly when it is present, nonzero
and not the default of the scheme, that is 80 for http and 443 for
https), then the path defaulting to a single slash when empty; the
query string never influences the result. -/
theorem claim_C6_amended :
    (∀ e : String, normalize_url (.error e) = .error e) ∧
    (∀ u : ParsedURL, ∀ e : String, pyUrlPort u.port = .error e →
      normalize_url (.ok u) = .error e) ∧
    (∀ u : ParsedURL, ∀ po : Option Nat, pyUrlPort u.port = .ok po →
      normalize_url (.ok u) = .ok (
        (strLower u.scheme) ++ "://" ++
        (match u.hostname with
         | some h => strLower h
         | none => "") ++
        (match po with
         | none => ""
         | some p =>
           if p ≠ 0 ∧
              ¬ ((strLower u.scheme = "http" ∧ p = 80) ∨
                 (strLower u.scheme = "https" ∧ p = 443))
           then ":" ++ toString p else "") ++
        (if u.path = "" then "/" else u.path))) ∧
    (∀ u : ParsedURL, ∀ q : String,
      normalize_url (.ok ⟨u.scheme, u.hostname, u.port, u.path, q⟩) =
      normalize_url (.ok ⟨u.scheme, u.hostname, u.port, u.path, ""⟩)) := by
  refine ⟨fun e => rfl, ?_, ?_, fun u q => rfl⟩
  · intro u e hport
    simp only [normalize_url]
    rw [hport]
  · intro u po hport
    simp only [normalize_url]
    rw [hport]
    simp only []
    cases po with
    | none =>
      refine congrArg Except.ok ?_
      apply string_eq_of_data_eq
      simp [String.data_append, List.append_assoc]
    | some p =>
      by_cases hz : p = 0
      · subst hz
        refine congrArg Except.ok ?_
        apply string_eq_of_data_eq
        simp [String.data_append, List.append_assoc]
      · by_cases hdef : (strLower u.scheme = "http" ∧ (some p : Option Nat) = some 80) ∨
            (strLower u.scheme = "https" ∧ (some p : Option Nat) = some 443)
        · have hdef2 : (strLower u.scheme = "http" ∧ p = 80) ∨
              (strLower u.scheme = "https" ∧ p = 443) := by
            simpa using hdef
          refine congrArg Except.ok ?_
          apply string_eq_of_data_eq
          simp [hdef, hdef2, String.data_append, List.append_assoc]
        · have hdef2 : ¬ ((strLower u.scheme = "http" ∧ p = 80) ∨
              (strLower u.scheme = "https" ∧ p = 443)) := by
            simpa using hdef
          refine congrArg Except.ok ?_
          apply string_eq_of_data_eq
          simp [hdef, hdef2, hz, String.data_append, List.append_assoc]

theorem claim_C6_witness :
    normalize_url (.error "Invalid IPv6 URL") = .error "Invalid IPv6 URL" ∧
    normalize_url (.ok ⟨"http", some "example.com", some "99999", "/a", ""⟩) =
      .error "Port out of range 0-65535" ∧
    normalize_url (.ok ⟨"HTTP", none, some "8443", "", "x=1"⟩) = .ok (
      (strLower "HTTP") ++ "://" ++
      (match (none : Option String) with
       | some h => strLower h
       | none => "") ++
      (match (some 8443 : Option Nat) with
       | none => ""
       | some p =>
         if p ≠ 0 ∧
            ¬ ((strLower "HTTP" = "http" ∧ p = 80) ∨
               (strLower "HTTP" = "https" ∧ p = 443))
         then ":" ++ toString p else "") ++
      (if ("" : String) = "" then "/" else "")) ∧
    normalize_url (.ok ⟨"http", some "h", none, "/p", "a=b"⟩) =
      normalize_url (.ok ⟨"http", some "h", none, "/p", ""⟩) :=
  ⟨claim_C6_amended.1 "Invalid IPv6 URL",
   claim_C6_amended.2.1 ⟨"http", some "example.com", some "99999", "/a", ""⟩
     "Port out of range 0-65535" (by decide),
   claim_C6_amended.2.2.1 ⟨"HTTP", none, some "8443", "", "x=1"⟩ (some 8443) (by decide),
   claim_C6_amended.2.2.2 ⟨"http", some "h", none, "/p", ""⟩ "a=b"⟩

/-- Claim C7: an Authorization header that does not begin with the exact
prefix OAuth-space parses to the empty parameter mapping, and validation
of a request carrying such a header fails with missing_authorization. -/
theorem claim_C7_non_oauth_header (ah : String) (h : ¬ pyStartsWith ah "OAuth ") :
    parse_authorization_header ah = [] ∧
    ∀ (m : String) (pu : Except String ParsedURL) (qp : List (String × QueryValue))
      (cred : Credentials) (tol now : Int),
      validate_oauth1_request m pu ah qp cred tol now =
        .ok (.failure "missing_authorization" "Missing or invalid OAuth Authorization header"
          none none) := by
  have hp : parse_authorization_header ah = [] := by
    unfold parse_authorization_header
    rw [if_pos (Or.inr h)]
  refine ⟨hp, fun m pu qp cred tol now => ?_⟩
  unfold validate_oauth1_request
  rw [hp]
  rfl

theorem claim_C7_witness :
    parse_authorization_header "Bearer abc123" = [] ∧
    validate_oauth1_request "GET" (.ok ⟨"http", some "example.com", none, "/r", ""⟩) "Bearer abc123" []
      ⟨"ck", "cs", "tk", "ts", none, none⟩ 300 1000 =
      .ok (.failure "missing_authorization" "Missing or invalid OAuth Authorization header"
        none none) :=
  ⟨(claim_C7_non_oauth_header "Bearer abc123" (by decide)).1,
   (claim_C7_non_oauth_header "Bearer abc123" (by decide)).2 "GET"
     (.ok ⟨"http", some "example.com", none, "/r", ""⟩) [] ⟨"ck", "cs", "tk", "ts", none, none⟩ 300 1000⟩

/-- Claim C2: the signing parameter set fed into the base string is
exactly the extracted OAuth protocol parameters without oauth_signature
and realm (oauth_signature_method defaulting to HMAC-SHA256 and
oauth_version to 1.0 when absent) together with every query parameter at
its first value, query values taking precedence; no other key occurs. -/
theorem claim_C2_signing_params (d : Dict) (qp : List (String × QueryValue))
    (hnd : (qp.map Prod.fst).Nodup)
    (ck tk ts n : String)
    (hck : dget d "oauth_consumer_key" = some ck)
    (htk : dget d "oauth_token" = some tk)
    (hts : dget d "oauth_timestamp" = some ts)
    (hn : dget d "oauth_nonce" = some n) :
    ∀ k, dget (build_sig_params ck tk
        ((dget d "oauth_signature_method").getD "HMAC-SHA256") ts n
        ((dget d "oauth_version").getD "1.0") qp) k =
      match qp.find? (fun p => p.1 == k) with
      | some p => some p.2.first
      | none =>
        if k = "oauth_consumer_key" then some ck
        else if k = "oauth_token" then some tk
        else if k = "oauth_signature_method" then
          some ((dget d "oauth_signature_method").getD "HMAC-SHA256")
        else if k = "oauth_timestamp" then some ts
        else if k = "oauth_nonce" then some n
        else if k = "oauth_version" then some ((dget d "oauth_version").getD "1.0")
        else none := by
  intro k
  unfold build_sig_params
  rw [dget_fold_query qp hnd _ k]
  cases hf : qp.find? (fun p => p.1 == k) with
  | some p => rfl
  | none =>
    simp only []
    unfold dget
    by_cases h1 : k = "oauth_consumer_key"
    · subst h1
      simp
    by_cases h2 : k = "oauth_token"
    · subst h2
      simp
    by_cases h3 : k = "oauth_signature_method"
    · subst h3
      simp
    by_cases h4 : k = "oauth_timestamp"
    · subst h4
      simp
    by_cases h5 : k = "oauth_nonce"
    · subst h5
      simp
    by_cases h6 : k = "oauth_version"
    · subst h6
      simp
    simp [List.find?_cons, h1, h2, h3, h4, h5, h6,
      show ("oauth_consumer_key" == k) = false by simpa using fun hh => h1 hh.symm,
      show ("oauth_token" == k) = false by simpa using fun hh => h2 hh.symm,
      show ("oauth_signature_method" == k) = false by simpa using fun hh => h3 hh.symm,
      show ("oauth_timestamp" == k) = false by simpa using fun hh => h4 hh.symm,
      show ("oauth_nonce" == k) = false by simpa using fun hh => h5 hh.symm,
      show ("oauth_version" == k) = false by simpa using fun hh => h6 hh.symm]

theorem claim_C2_witness :
    dget (build_sig_params "ck" "tk"
        ((dget [("oauth_consumer_key", "ck"), ("oauth_token", "tk"),
                ("oauth_timestamp", "1000"), ("oauth_nonce", "n1")] "oauth_signature_method").getD "HMAC-SHA256")
        "1000" "n1"
        ((dget [("oauth_consumer_key", "ck"), ("oauth_token", "tk"),
                ("oauth_timestamp", "1000"), ("oauth_nonce", "n1")] "oauth_version").getD "1.0")
        [("page", QueryValue.str "2")]) "oauth_signature" =
      match [("page", QueryValue.str "2")].find? (fun p => p.1 == "oauth_signature") with
      | some p => some p.2.first
      | none =>
        if "oauth_signature" = "oauth_consumer_key" then some "ck"
        else if "oauth_signature" = "oauth_token" then some "tk"
        else if "oauth_signature" = "oauth_signature_method" then
          some ((dget [("oauth_consumer_key", "ck"), ("oauth_token", "tk"),
                ("oauth_timestamp", "1000"), ("oauth_nonce", "n1")] "oauth_signature_method").getD "HMAC-SHA256")
        else if "oauth_signature" = "oauth_timestamp" then some "1000"
        else if "oauth_signature" = "oauth_nonce" then some "n1"
        else if "oauth_signature" = "oauth_version" then
          some ((dget [("oauth_consumer_key", "ck"), ("oauth_token", "tk"),
                ("oauth_timestamp", "1000"), ("oauth_nonce", "n1")] "oauth_version").getD "1.0")
        else none :=
  claim_C2_signing_params
    [("oauth_consumer_key", "ck"), ("oauth_token", "tk"),
     ("oauth_timestamp", "1000"), ("oauth_nonce", "n1")]
    [("page", QueryValue.str "2")] (by decide) "ck" "tk" "1000" "n1"
    (by decide) (by decide) (by decide) (by decide) "oauth_signature"

/-- Claim C10: a query parameter whose name equals one of the six OAuth
signing parameter names overwrites the header-supplied value in the
signing parameter set, because the query merge runs after the OAuth
parameters are inserted. -/
theorem claim_C10_query_overrides (ck tk sm ts n ver : String)
    (qp : List (String × QueryValue)) (hnd : (qp.map Prod.fst).Nodup)
    (k : String) (qv : QueryValue)
    (hk : k ∈ ["oauth_consumer_key", "oauth_token", "oauth_signature_method",
               "oauth_timestamp", "oauth_nonce", "oauth_version"])
    (hfind : qp.find? (fun p => p.1 == k) = some (k, qv)) :
    dget (build_sig_params ck tk sm ts n ver qp) k = some qv.first := by
  unfold build_sig_params
  rw [dget_fold_query qp hnd _ k, hfind]

theorem claim_C10_witness :
    dget (build_sig_params "ck" "tk" "HMAC-SHA1" "1000" "headernonce" "1.0"
      [("oauth_nonce", QueryValue.str "querynonce")]) "oauth_nonce" = some "querynonce" ∧
    some "querynonce" ≠ (some "headernonce" : Option String) :=
  ⟨claim_C10_query_overrides "ck" "tk" "HMAC-SHA1" "1000" "headernonce" "1.0"
      [("oauth_nonce", QueryValue.str "querynonce")] (by decide) "oauth_nonce"
      (QueryValue.str "querynonce") (by decide) (by decide),
   by decide⟩


theorem gs_ok_of_supported (bs cs ts sm : String) (h : sm = "HMAC-SHA1" ∨ sm = "HMAC-SHA256") :
    ∃ s, generate_signature bs cs ts sm = .ok s := by
  rcases h with h | h <;> subst h <;> simp [generate_signature]

theorem gs_error_unsupported (bs cs ts sm e : String)
    (h : generate_signature bs cs ts sm = .error e) : sm ≠ "HMAC-SHA256" ∧ sm ≠ "HMAC-SHA1" := by
  unfold generate_signature at h
  split at h
  · simp at h
  · split at h
    · simp at h
    · rename_i h1 h2
      exact ⟨h1, h2⟩

/-- Claim C3: with all five mandatory parameters present and truthy, a
consumer key differing from the configured one makes validation return
invalid_consumer_key immediately, whatever the token, realm, signature
method, timestamp and signature are: the consumer-key gate precedes
every later gate and the signature recomputation. -/
theorem claim_C3_gate_ordering (m : String) (pu : Except String ParsedURL) (ah : String)
    (qp : List (String × QueryValue)) (cred : Credentials) (tol now : Int) (d : Dict)
    (ckv tkv tsv nv sv : String)
    (hparse : parse_authorization_header ah = d)
    (hck : dget d "oauth_consumer_key" = some ckv) (hckne : ckv ≠ "")
    (htk : dget d "oauth_token" = some tkv) (htkne : tkv ≠ "")
    (hts : dget d "oauth_timestamp" = some tsv) (htsne : tsv ≠ "")
    (hn : dget d "oauth_nonce" = some nv) (hnne : nv ≠ "")
    (hsig : dget d "oauth_signature" = some sv) (hsne : sv ≠ "")
    (hwrong : ckv ≠ cred.consumer_key) :
    validate_oauth1_request m pu ah qp cred tol now =
      .ok (.failure "invalid_consumer_key" "Consumer key does not match" (some d) none) := by
  have hne : d ≠ [] := dget_ne_nil hck
  unfold validate_oauth1_request
  rw [hparse, if_neg hne]
  simp only [hck, htk, hts, hn, hsig, truthy]
  rw [if_neg (not_not_intro ⟨by simpa using hckne, by simpa using htkne, by simpa using htsne,
    by simpa using hnne, by simpa using hsne⟩)]
  rw [if_pos (by simpa using hwrong)]

theorem claim_C3_witness :
    validate_oauth1_request "GET" (.ok ⟨"http", some "example.com", none, "/r", ""⟩)
      "OAuth oauth_consumer_key=\"WRONG\", oauth_token=\"tk\", oauth_timestamp=\"1000\", oauth_nonce=\"n\", oauth_signature=\"bad\""
      [] ⟨"ck", "cs", "tk", "ts", none, none⟩ 300 1000 =
      .ok (.failure "invalid_consumer_key" "Consumer key does not match"
        (some [("oauth_consumer_key", "WRONG"), ("oauth_token", "tk"), ("oauth_timestamp", "1000"),
               ("oauth_nonce", "n"), ("oauth_signature", "bad")]) none) :=
  claim_C3_gate_ordering "GET" (.ok ⟨"http", some "example.com", none, "/r", ""⟩)
    "OAuth oauth_consumer_key=\"WRONG\", oauth_token=\"tk\", oauth_timestamp=\"1000\", oauth_nonce=\"n\", oauth_signature=\"bad\""
    [] ⟨"ck", "cs", "tk", "ts", none, none⟩ 300 1000
    [("oauth_consumer_key", "WRONG"), ("oauth_token", "tk"), ("oauth_timestamp", "1000"),
     ("oauth_nonce", "n"), ("oauth_signature", "bad")]
    "WRONG" "tk" "1000" "n" "bad"
    (by decide) (by decide) (by decide) (by decide) (by decide) (by decide) (by decide)
    (by decide) (by decide) (by decide) (by decide) (by decide)

/-- Claim C4: once the earlier gates pass, a timestamp parsing to an
integer within the tolerance of the current time passes the timestamp
gate (in particular a timestamp exactly tolerance away), a distance of
exactly tolerance plus one yields expired_timestamp, and an unparseable
timestamp yields invalid_timestamp. -/
theorem claim_C4_timestamp_boundary (m : String) (pu : Except String ParsedURL) (ah : String)
    (qp : List (String × QueryValue)) (cred : Credentials) (tol now : Int) (d : Dict)
    (tsv nv sv sm : String)
    (hparse : parse_authorization_header ah = d)
    (hck : dget d "oauth_consumer_key" = some cred.consumer_key) (hckne : cred.consumer_key ≠ "")
    (htk : dget d "oauth_token" = some cred.token_id) (htkne : cred.token_id ≠ "")
    (hts : dget d "oauth_timestamp" = some tsv) (htsne : tsv ≠ "")
    (hn : dget d "oauth_nonce" = some nv) (hnne : nv ≠ "")
    (hsig : dget d "oauth_signature" = some sv) (hsne : sv ≠ "")
    (hrealm : truthy cred.realm = true → dget d "realm" = cred.realm)
    (hsm : (dget d "oauth_signature_method").getD "HMAC-SHA256" = sm)
    (hmem : sm ∈ cred.signature_methods.getD ["HMAC-SHA256", "HMAC-SHA1"]) :
    (∀ t : Int, pyIntOfString tsv = some t → ((now - t).natAbs : Int) ≤ tol →
      resultError (validate_oauth1_request m pu ah qp cred tol now) ≠ some "expired_timestamp" ∧
      resultError (validate_oauth1_request m pu ah qp cred tol now) ≠ some "invalid_timestamp") ∧
    (∀ t : Int, pyIntOfString tsv = some t → ((now - t).natAbs : Int) = tol + 1 →
      validate_oauth1_request m pu ah qp cred tol now =
        .ok (.failure "expired_timestamp"
          ("Timestamp out of range. Current: " ++ toString now ++ ", Request: " ++ toString t)
          (some d) none)) ∧
    (pyIntOfString tsv = none →
      validate_oauth1_request m pu ah qp cred tol now =
        .ok (.failure "invalid_timestamp" "Timestamp is not a valid integer" (some d) none)) := by
  have hne : d ≠ [] := dget_ne_nil hck
  have hcont : (cred.signature_methods.getD ["HMAC-SHA256", "HMAC-SHA1"]).contains sm = true :=
    List.elem_iff.mpr hmem
  refine ⟨?_, ?_, ?_⟩
  · intro t hpy htol
    unfold validate_oauth1_request
    rw [hparse, if_neg hne]
    simp only [hck, htk, hts, hn, hsig, truthy, hsm]
    rw [if_neg (not_not_intro ⟨by simpa using hckne, by simpa using htkne, by simpa using htsne,
      by simpa using hnne, by simpa using hsne⟩)]
    rw [if_neg (by simp)]
    rw [if_neg (by simp)]
    rw [if_neg (fun hh => hh.2 (hrealm hh.1))]
    rw [if_neg (not_not_intro hcont)]
    simp only [Option.getD_some]
    rw [hpy]
    simp only []
    rw [if_neg (by omega)]
    cases hnu : normalize_url pu with
    | error e => simp [resultError]
    | ok burl =>
      simp only []
      cases hg : generate_signature
          (generate_signature_base_string m burl
            (build_sig_params cred.consumer_key cred.token_id sm tsv nv
              ((dget d "oauth_version").getD "1.0") qp))
          cred.consumer_secret cred.token_secret sm with
      | error e => simp [resultError]
      | ok es =>
        by_cases hx : (some sv ≠ some es)
        · simp [resultError, hx]
        · simp [resultError, hx]
  · intro t hpy htol
    unfold validate_oauth1_request
    rw [hparse, if_neg hne]
    simp only [hck, htk, hts, hn, hsig, truthy, hsm]
    rw [if_neg (not_not_intro ⟨by simpa using hckne, by simpa using htkne, by simpa using htsne,
      by simpa using hnne, by simpa using hsne⟩)]
    rw [if_neg (by simp)]
    rw [if_neg (by simp)]
    rw [if_neg (fun hh => hh.2 (hrealm hh.1))]
    rw [if_neg (not_not_intro hcont)]
    simp only [Option.getD_some]
    rw [hpy]
    simp only []
    rw [if_pos (by rw [htol]; omega)]
  · intro hpy
    unfold validate_oauth1_request
    rw [hparse, if_neg hne]
    simp only [hck, htk, hts, hn, hsig, truthy, hsm]
    rw [if_neg (not_not_intro ⟨by simpa using hckne, by simpa using htkne, by simpa using htsne,
      by simpa using hnne, by simpa using hsne⟩)]
    rw [if_neg (by simp)]
    rw [if_neg (by simp)]
    rw [if_neg (fun hh => hh.2 (hrealm hh.1))]
    rw [if_neg (not_not_intro hcont)]
    simp only [Option.getD_some]
    rw [hpy]

theorem claim_C4_witness :
    (resultError (validate_oauth1_request "GET" (.ok ⟨"http", some "example.com", none, "/r", ""⟩)
        "OAuth oauth_consumer_key=\"ck\", oauth_token=\"tk\", oauth_timestamp=\"1000\", oauth_nonce=\"n\", oauth_signature=\"s\""
        [] ⟨"ck", "cs", "tk", "ts", none, none⟩ 300 1300) ≠ some "expired_timestamp" ∧
     resultError (validate_oauth1_request "GET" (.ok ⟨"http", some "example.com", none, "/r", ""⟩)
        "OAuth oauth_consumer_key=\"ck\", oauth_token=\"tk\", oauth_timestamp=\"1000\", oauth_nonce=\"n\", oauth_signature=\"s\""
        [] ⟨"ck", "cs", "tk", "ts", none, none⟩ 300 1300) ≠ some "invalid_timestamp") ∧
    validate_oauth1_request "GET" (.ok ⟨"http", some "example.com", none, "/r", ""⟩)
        "OAuth oauth_consumer_key=\"ck\", oauth_token=\"tk\", oauth_timestamp=\"1000\", oauth_nonce=\"n\", oauth_signature=\"s\""
        [] ⟨"ck", "cs", "tk", "ts", none, none⟩ 300 1301 =
      .ok (.failure "expired_timestamp"
        ("Timestamp out of range. Current: " ++ toString (1301 : Int) ++ ", Request: " ++ toString (1000 : Int))
        (some [("oauth_consumer_key", "ck"), ("oauth_token", "tk"), ("oauth_timestamp", "1000"),
               ("oauth_nonce", "n"), ("oauth_signature", "s")]) none) ∧
    validate_oauth1_request "GET" (.ok ⟨"http", some "example.com", none, "/r", ""⟩)
        "OAuth oauth_consumer_key=\"ck\", oauth_token=\"tk\", oauth_timestamp=\"10x0\", oauth_nonce=\"n\", oauth_signature=\"s\""
        [] ⟨"ck", "cs", "tk", "ts", none, none⟩ 300 1000 =
      .ok (.failure "invalid_timestamp" "Timestamp is not a valid integer"
        (some [("oauth_consumer_key", "ck"), ("oauth_token", "tk"), ("oauth_timestamp", "10x0"),
               ("oauth_nonce", "n"), ("oauth_signature", "s")]) none) :=
  ⟨(claim_C4_timestamp_boundary "GET" (.ok ⟨"http", some "example.com", none, "/r", ""⟩)
      "OAuth oauth_consumer_key=\"ck\", oauth_token=\"tk\", oauth_timestamp=\"1000\", oauth_nonce=\"n\", oauth_signature=\"s\""
      [] ⟨"ck", "cs", "tk", "ts", none, none⟩ 300 1300
      [("oauth_consumer_key", "ck"), ("oauth_token", "tk"), ("oauth_timestamp", "1000"),
       ("oauth_nonce", "n"), ("oauth_signature", "s")]
      "1000" "n" "s" "HMAC-SHA256"
      (by decide) (by decide) (by decide) (by decide) (by decide) (by decide) (by decide)
      (by decide) (by decide) (by decide) (by decide) (by decide) (by decide) (by decide)).1
     1000 (by decide) (by decide),
   (claim_C4_timestamp_boundary "GET" (.ok ⟨"http", some "example.com", none, "/r", ""⟩)
      "OAuth oauth_consumer_key=\"ck\", oauth_token=\"tk\", oauth_timestamp=\"1000\", oauth_nonce=\"n\", oauth_signature=\"s\""
      [] ⟨"ck", "cs", "tk", "ts", none, none⟩ 300 1301
      [("oauth_consumer_key", "ck"), ("oauth_token", "tk"), ("oauth_timestamp", "1000"),
       ("oauth_nonce", "n"), ("oauth_signature", "s")]
      "1000" "n" "s" "HMAC-SHA256"
      (by decide) (by decide) (by decide) (by decide) (by decide) (by decide) (by decide)
      (by decide) (by decide) (by decide) (by decide) (by decide) (by decide) (by decide)).2.1
     1000 (by decide) (by decide),
   (claim_C4_timestamp_boundary "GET" (.ok ⟨"http", some "example.com", none, "/r", ""⟩)
      "OAuth oauth_consumer_key=\"ck\", oauth_token=\"tk\", oauth_timestamp=\"10x0\", oauth_nonce=\"n\", oauth_signature=\"s\""
      [] ⟨"ck", "cs", "tk", "ts", none, none⟩ 300 1000
      [("oauth_consumer_key", "ck"), ("oauth_token", "tk"), ("oauth_timestamp", "10x0"),
       ("oauth_nonce", "n"), ("oauth_signature", "s")]
      "10x0" "n" "s" "HMAC-SHA256"
      (by decide) (by decide) (by decide) (by decide) (by decide) (by decide) (by decide)
      (by decide) (by decide) (by decide) (by decide) (by decide) (by decide) (by decide)).2.2
     (by decide)⟩

/-- Claim C9: a mandatory parameter supplied with an empty-string value
is treated exactly like an absent one, because the presence gate tests
Python truthiness of the value: validation returns missing_parameters
and the missing list names that parameter. -/
theorem claim_C9_empty_value (m : String) (pu : Except String ParsedURL) (ah : String)
    (qp : List (String × QueryValue)) (cred : Credentials) (tol now : Int) (d : Dict)
    (p : String)
    (hparse : parse_authorization_header ah = d)
    (hp : p ∈ ["oauth_consumer_key", "oauth_token", "oauth_timestamp", "oauth_nonce",
               "oauth_signature"])
    (hv : dget d p = some "") :
    p ∈ missingList (dget d "oauth_consumer_key") (dget d "oauth_token")
        (dget d "oauth_timestamp") (dget d "oauth_nonce") (dget d "oauth_signature") ∧
    validate_oauth1_request m pu ah qp cred tol now =
      .ok (.failure "missing_parameters"
        ("Missing required OAuth parameters: " ++ String.intercalate ", "
          (missingList (dget d "oauth_consumer_key") (dget d "oauth_token")
            (dget d "oauth_timestamp") (dget d "oauth_nonce") (dget d "oauth_signature")))
        (some d) none) := by
  have hne : d ≠ [] := dget_ne_nil hv
  constructor
  · fin_cases hp <;> simp [missingList, hv, truthy]
  · fin_cases hp <;>
      (unfold validate_oauth1_request
       rw [hparse, if_neg hne]
       simp only [truthy]
       rw [if_pos (by rw [hv]; simp [truthy])])

theorem claim_C9_witness :
    "oauth_nonce" ∈ missingList
        (dget [("oauth_consumer_key", "ck"), ("oauth_token", "tk"), ("oauth_timestamp", "1000"),
               ("oauth_nonce", ""), ("oauth_signature", "s")] "oauth_consumer_key")
        (dget [("oauth_consumer_key", "ck"), ("oauth_token", "tk"), ("oauth_timestamp", "1000"),
               ("oauth_nonce", ""), ("oauth_signature", "s")] "oauth_token")
        (dget [("oauth_consumer_key", "ck"), ("oauth_token", "tk"), ("oauth_timestamp", "1000"),
               ("oauth_nonce", ""), ("oauth_signature", "s")] "oauth_timestamp")
        (dget [("oauth_consumer_key", "ck"), ("oauth_token", "tk"), ("oauth_timestamp", "1000"),
               ("oauth_nonce", ""), ("oauth_signature", "s")] "oauth_nonce")
        (dget [("oauth_consumer_key", "ck"), ("oauth_token", "tk"), ("oauth_timestamp", "1000"),
               ("oauth_nonce", ""), ("oauth_signature", "s")] "oauth_signature") ∧
    validate_oauth1_request "GET" (.ok ⟨"http", some "example.com", none, "/r", ""⟩)
        "OAuth oauth_consumer_key=\"ck\", oauth_token=\"tk\", oauth_timestamp=\"1000\", oauth_nonce=\"\", oauth_signature=\"s\""
        [] ⟨"ck", "cs", "tk", "ts", none, none⟩ 300 1000 =
      .ok (.failure "missing_parameters"
        ("Missing required OAuth parameters: " ++ String.intercalate ", "
          (missingList
            (dget [("oauth_consumer_key", "ck"), ("oauth_token", "tk"), ("oauth_timestamp", "1000"),
                   ("oauth_nonce", ""), ("oauth_signature", "s")] "oauth_consumer_key")
            (dget [("oauth_consumer_key", "ck"), ("oauth_token", "tk"), ("oauth_timestamp", "1000"),
                   ("oauth_nonce", ""), ("oauth_signature", "s")] "oauth_token")
            (dget [("oauth_consumer_key", "ck"), ("oauth_token", "tk"), ("oauth_timestamp", "1000"),
                   ("oauth_nonce", ""), ("oauth_signature", "s")] "oauth_timestamp")
            (dget [("oauth_consumer_key", "ck"), ("oauth_token", "tk"), ("oauth_timestamp", "1000"),
                   ("oauth_nonce", ""), ("oauth_signature", "s")] "oauth_nonce")
            (dget [("oauth_consumer_key", "ck"), ("oauth_token", "tk"), ("oauth_timestamp", "1000"),
                   ("oauth_nonce", ""), ("oauth_signature", "s")] "oauth_signature")))
        (some [("oauth_consumer_key", "ck"), ("oauth_token", "tk"), ("oauth_timestamp", "1000"),
               ("oauth_nonce", ""), ("oauth_signature", "s")]) none) :=
  claim_C9_empty_value "GET" (.ok ⟨"http", some "example.com", none, "/r", ""⟩)
    "OAuth oauth_consumer_key=\"ck\", oauth_token=\"tk\", oauth_timestamp=\"1000\", oauth_nonce=\"\", oauth_signature=\"s\""
    [] ⟨"ck", "cs", "tk", "ts", none, none⟩ 300 1000
    [("oauth_consumer_key", "ck"), ("oauth_token", "tk"), ("oauth_timestamp", "1000"),
     ("oauth_nonce", ""), ("oauth_signature", "s")]
    "oauth_nonce" (by decide) (by decide) (by decide)

/-- Claim C8, counterexample: the claim says an exception can arise only
from a configured signature method that is not HMAC, but with the
default configuration, whose allowed methods are exactly HMAC-SHA256
and HMAC-SHA1, a request that passes every gate and carries the URL
http colon slash slash example.com colon 99999 slash r makes validate
raise: the urlparse port property read at line 52 raises ValueError for
the out-of-range port, uncaught (the only try block wraps the timestamp
parse), so no structured verdict is returned. -/
theorem claim_C8_counterexample :
    (Credentials.mk "ck" "cs" "tk" "ts" none none).signature_methods.getD
        ["HMAC-SHA256", "HMAC-SHA1"] = ["HMAC-SHA256", "HMAC-SHA1"] ∧
    validate_oauth1_request "GET" (.ok ⟨"http", some "example.com", some "99999", "/r", ""⟩)
      "OAuth oauth_consumer_key=\"ck\", oauth_token=\"tk\", oauth_timestamp=\"1000\", oauth_nonce=\"n\", oauth_signature=\"s\""
      [] ⟨"ck", "cs", "tk", "ts", none, none⟩ 300 1000 = .error "Port out of range 0-65535" :=
  ⟨by decide, by decide⟩

/-- Claim C8 as amended: when every configured signature method is
HMAC-SHA1 or HMAC-SHA256 and the request URL normalizes without error,
validation always returns a structured verdict; and a raised exception
is either the internal signature-method precondition violation (a
method in the allowed list that is neither HMAC-SHA1 nor HMAC-SHA256
reaching the signing step) or exactly the ValueError of the URL step,
raised by the urlparse call at line 48 or its port property at line 52
for a URL whose port is not an ASCII-digit integer in the range 0 to
65535. -/
theorem claim_C8_no_exception (m : String) (pu : Except String ParsedURL) (ah : String)
    (qp : List (String × QueryValue)) (cred : Credentials) (tol now : Int) :
    ((∀ x ∈ cred.signature_methods.getD ["HMAC-SHA256", "HMAC-SHA1"],
        x = "HMAC-SHA1" ∨ x = "HMAC-SHA256") →
      (∃ b, normalize_url pu = .ok b) →
      ∃ r, validate_oauth1_request m pu ah qp cred tol now = .ok r) ∧
    (∀ e, validate_oauth1_request m pu ah qp cred tol now = .error e →
      (((dget (parse_authorization_header ah) "oauth_signature_method").getD "HMAC-SHA256")
          ∈ cred.signature_methods.getD ["HMAC-SHA256", "HMAC-SHA1"] ∧
       ((dget (parse_authorization_header ah) "oauth_signature_method").getD "HMAC-SHA256") ≠ "HMAC-SHA1" ∧
       ((dget (parse_authorization_header ah) "oauth_signature_method").getD "HMAC-SHA256") ≠ "HMAC-SHA256") ∨
      normalize_url pu = .error e) := by
  have h2 : ∀ e, validate_oauth1_request m pu ah qp cred tol now = .error e →
      (((dget (parse_authorization_header ah) "oauth_signature_method").getD "HMAC-SHA256")
          ∈ cred.signature_methods.getD ["HMAC-SHA256", "HMAC-SHA1"] ∧
       ((dget (parse_authorization_header ah) "oauth_signature_method").getD "HMAC-SHA256") ≠ "HMAC-SHA1" ∧
       ((dget (parse_authorization_header ah) "oauth_signature_method").getD "HMAC-SHA256") ≠ "HMAC-SHA256") ∨
      normalize_url pu = .error e := by
    intro e he
    simp only [validate_oauth1_request] at he
    split at he
    · simp at he
    · split at he
      · simp at he
      · split at he
        · simp at he
        · split at he
          · simp at he
          · split at he
            · simp at he
            · split at he
              · simp at he
              · split at he
                · simp at he
                · split at he
                  · simp at he
                  · split at he
                    · rename_i hnu
                      simp only [Except.error.injEq] at he
                      subst he
                      exact Or.inr hnu
                    · split at he
                      · rename_i hg1 hg2 hg3 hg4 hg5 hmeth hx1 ht heqt htol xnu burl hnu hx2 ee2 hge
                        have hmem := List.elem_iff.mp (not_not.mp hmeth)
                        have hock := gs_error_unsupported _ _ _ _ _ hge
                        exact Or.inl ⟨hmem, hock.2, hock.1⟩
                      · split at he
                        · simp at he
                        · simp at he
  refine ⟨?_, h2⟩
  intro hall hok
  cases hv : validate_oauth1_request m pu ah qp cred tol now with
  | ok r => exact ⟨r, rfl⟩
  | error e =>
    rcases h2 e hv with ⟨hmem, hne1, hne2⟩ | hnu
    · rcases hall _ hmem with h | h
      · exact absurd h hne1
      · exact absurd h hne2
    · obtain ⟨b, hb⟩ := hok
      rw [hb] at hnu
      exact absurd hnu (by simp)

theorem claim_C8_witness :
    ∃ r, validate_oauth1_request "GET" (.ok ⟨"http", some "example.com", none, "/r", ""⟩)
      "OAuth garbage" [] ⟨"ck", "cs", "tk", "ts", none, none⟩ 300 1000 = .ok r :=
  (claim_C8_no_exception "GET" (.ok ⟨"http", some "example.com", none, "/r", ""⟩)
    "OAuth garbage" [] ⟨"ck", "cs", "tk", "ts", none, none⟩ 300 1000).1 (by decide)
    ⟨"http://example.com/r", by decide⟩

/-- Claim C1: a request whose header carries the five mandatory
parameters matching the credentials (and the realm when one is
configured), a timestamp within tolerance, an allowed HMAC signature
method, and a signature equal to the one recomputed by the documented
base-string construction and HMAC signing with the credential secrets,
validates successfully, and the success verdict carries the normalized
parameter subset. -/
theorem claim_C1_signature_symmetry (m : String) (pu : Except String ParsedURL) (ah : String)
    (qp : List (String × QueryValue)) (cred : Credentials) (tol now : Int) (d : Dict)
    (tsv nv sm ver sig burl : String) (t : Int)
    (hparse : parse_authorization_header ah = d)
    (hck : dget d "oauth_consumer_key" = some cred.consumer_key) (hckne : cred.consumer_key ≠ "")
    (htk : dget d "oauth_token" = some cred.token_id) (htkne : cred.token_id ≠ "")
    (hts : dget d "oauth_timestamp" = some tsv) (htsne : tsv ≠ "")
    (hn : dget d "oauth_nonce" = some nv) (hnne : nv ≠ "")
    (hrealm : truthy cred.realm = true → dget d "realm" = cred.realm)
    (hsm : (dget d "oauth_signature_method").getD "HMAC-SHA256" = sm)
    (hver : (dget d "oauth_version").getD "1.0" = ver)
    (hallowed : ∀ x ∈ cred.signature_methods.getD ["HMAC-SHA256", "HMAC-SHA1"],
      x = "HMAC-SHA1" ∨ x = "HMAC-SHA256")
    (hmem : sm ∈ cred.signature_methods.getD ["HMAC-SHA256", "HMAC-SHA1"])
    (hpy : pyIntOfString tsv = some t)
    (htol : ((now - t).natAbs : Int) ≤ tol)
    (hurl : normalize_url pu = .ok burl)
    (hgen : generate_signature
        (generate_signature_base_string m burl
          (build_sig_params cred.consumer_key cred.token_id sm tsv nv ver qp))
        cred.consumer_secret cred.token_secret sm = .ok sig)
    (hsig : dget d "oauth_signature" = some sig) :
    validate_oauth1_request m pu ah qp cred tol now =
      .ok (.success cred.consumer_key cred.token_id sm tsv nv (dget d "realm") ver) := by
  have hsne : sig ≠ "" := generate_signature_ok_ne_empty hgen
  have hne : d ≠ [] := dget_ne_nil hck
  have hcont : (cred.signature_methods.getD ["HMAC-SHA256", "HMAC-SHA1"]).contains sm = true :=
    List.elem_iff.mpr hmem
  unfold validate_oauth1_request
  rw [hparse, if_neg hne]
  simp only [hck, htk, hts, hn, hsig, truthy, hsm, hver]
  rw [if_neg (not_not_intro ⟨by simpa using hckne, by simpa using htkne, by simpa using htsne,
    by simpa using hnne, by simpa using hsne⟩)]
  rw [if_neg (by simp)]
  rw [if_neg (by simp)]
  rw [if_neg (fun hh => hh.2 (hrealm hh.1))]
  rw [if_neg (not_not_intro hcont)]
  simp only [Option.getD_some]
  rw [hpy]
  simp only []
  rw [if_neg (by omega)]
  rw [hurl]
  simp only []
  rw [hgen]
  simp only []
  rw [if_neg (by simp)]

theorem claim_C1_witness :
    validate_oauth1_request "GET" (.ok ⟨"http", some "example.com", none, "/resource", ""⟩)
      "OAuth oauth_consumer_key=\"ck\", oauth_token=\"tk\", oauth_signature_method=\"HMAC-SHA1\", oauth_timestamp=\"1000\", oauth_nonce=\"abc123\", oauth_signature=\"FNUekkbIpxADkjOjlV4HPrn7Zz8=\""
      [] ⟨"ck", "cs", "tk", "ts", none, none⟩ 300 1000 =
      .ok (.success "ck" "tk" "HMAC-SHA1" "1000" "abc123"
        (dget [("oauth_consumer_key", "ck"), ("oauth_token", "tk"),
               ("oauth_signature_method", "HMAC-SHA1"), ("oauth_timestamp", "1000"),
               ("oauth_nonce", "abc123"), ("oauth_signature", "FNUekkbIpxADkjOjlV4HPrn7Zz8=")]
          "realm") "1.0") :=
  claim_C1_signature_symmetry "GET" (.ok ⟨"http", some "example.com", none, "/resource", ""⟩)
    "OAuth oauth_consumer_key=\"ck\", oauth_token=\"tk\", oauth_signature_method=\"HMAC-SHA1\", oauth_timestamp=\"1000\", oauth_nonce=\"abc123\", oauth_signature=\"FNUekkbIpxADkjOjlV4HPrn7Zz8=\""
    [] ⟨"ck", "cs", "tk", "ts", none, none⟩ 300 1000
    [("oauth_consumer_key", "ck"), ("oauth_token", "tk"),
     ("oauth_signature_method", "HMAC-SHA1"), ("oauth_timestamp", "1000"),
     ("oauth_nonce", "abc123"), ("oauth_signature", "FNUekkbIpxADkjOjlV4HPrn7Zz8=")]
    "1000" "abc123" "HMAC-SHA1" "1.0" "FNUekkbIpxADkjOjlV4HPrn7Zz8="
    "http://example.com/resource" 1000
    (by decide) (by decide) (by decide) (by decide) (by decide) (by decide) (by decide)
    (by decide) (by decide) (by decide) (by decide) (by decide) (by decide) (by decide)
    (by decide) (by decide) (by decide) (by decide) (by decide)

end TokenRelay
